import Mathlib

/-!
Verification of the asdf extension/converter registration and dispatch core.

The Python sources under asdf/ are shallowly embedded: pure logic becomes
Lean functions, mutable manager state becomes explicit state records, Python
object identity becomes explicit numeric ids, and code that raises becomes
Except / Option results.  Two generations of the code are modelled:

* OldExt   — asdf/extension.py (AsdfTagDescription, ExtensionProxy,
             ExtensionManager with add_extension / remove_extension; this
             class is broken as written, and its methods are modelled
             together with the AttributeError crashes they raise).
* NewExt   — asdf/extension/_extension.py (ExtensionProxy, ExtensionManager
             built once from a list).
* NewConv  — asdf/extension/_converter.py (ConverterProxy).
* ConvMgr  — asdf/_converter.py (ConverterManager).
* Engine   — the recursive to-tree / from-tree walk of the conversion engine,
             modelled from the specification (the walk itself is not among the
             provided sources; only its two-phase generator shells in
             asdf/extension.py and asdf/mapper.py are).
-/

namespace AsdfSpec

/-- Tag definition value object.  The classes AsdfTagDescription
(asdf/extension.py lines 29-50), AsdfTagDefinition
(asdf/extension/_tag_definition.py) and TagDefinition (asdf/extension/_tag.py)
all carry the same four fields; the latter two files are referenced by the
package but absent from the provided sources, so the field layout follows the
AsdfTagDescription class and the constructions in the tests. -/
structure TagDef where
  tag_uri : String
  schema_uri : Option String := none
  title : Option String := none
  description : Option String := none
  deriving DecidableEq, Repr

/-- Python collections.defaultdict(list) mutation d[k].append(v): find the
key and append to its list, inserting a fresh singleton list when the key is
absent. -/
def ddAppend {κ α : Type} [DecidableEq κ] (d : List (κ × List α)) (k : κ) (v : α) :
    List (κ × List α) :=
  match d with
  | [] => [(k, [v])]
  | (k0, vs) :: rest =>
    if k0 = k then (k0, vs ++ [v]) :: rest else (k0, vs) :: ddAppend rest k v

/-- Python d.get(k, []) (also the value a defaultdict(list) read produces for
an absent key). -/
def ddGet {κ α : Type} [DecidableEq κ] (d : List (κ × List α)) (k : κ) : List α :=
  match d with
  | [] => []
  | (k0, vs) :: rest => if k0 = k then vs else ddGet rest k

/-- Python membership test k in d. -/
def ddMem {κ α : Type} [DecidableEq κ] (d : List (κ × List α)) (k : κ) : Bool :=
  match d with
  | [] => false
  | (k0, _) :: rest => if k0 = k then true else ddMem rest k

/-- Python set.add on a set modelled as a duplicate-free insertion-ordered
list. -/
def setAdd {α : Type} [DecidableEq α] (s : List α) (x : α) : List α :=
  if x ∈ s then s else s ++ [x]

/-- Python set.update (element-wise setAdd). -/
def setUpdate {α : Type} [DecidableEq α] (s : List α) (xs : List α) : List α :=
  xs.foldl setAdd s

theorem ddGet_ddAppend {κ α : Type} [DecidableEq κ] (d : List (κ × List α)) (k k1 : κ) (v : α) :
    ddGet (ddAppend d k v) k1 = if k1 = k then ddGet d k1 ++ [v] else ddGet d k1 := by
  induction d with
  | nil =>
    by_cases h : k1 = k
    · simp [ddAppend, ddGet, h]
    · simp [ddAppend, ddGet, h, Ne.symm h]
  | cons hd tl ih =>
    obtain ⟨k0, vs⟩ := hd
    by_cases h0 : k0 = k
    · subst h0
      by_cases h1 : k1 = k0
      · subst h1
        simp [ddAppend, ddGet]
      · simp [ddAppend, ddGet, h1, Ne.symm h1]
    · by_cases h1 : k1 = k0
      · subst h1
        simp [ddAppend, ddGet, Ne.symm h0, h0]
      · simp [ddAppend, ddGet, h0, h1, Ne.symm h1, ih]

/-- Reading a key after a keyed append loop: each occurrence of the key in
the appended key list contributes one copy of the value. -/
theorem ddGet_fold_keys {κ α : Type} [DecidableEq κ] (ts : List κ) (c : α)
    (d : List (κ × List α)) (T : κ) :
    ddGet (ts.foldl (fun d t => ddAppend d t c) d) T
      = ddGet d T ++ (ts.filter (fun t => t = T)).map (fun _ => c) := by
  induction ts generalizing d with
  | nil => simp
  | cons t ts ih =>
    simp only [List.foldl_cons]
    by_cases hT : t = T
    · subst hT
      simp [ih, ddGet_ddAppend, List.filter_cons]
    · simp [ih, ddGet_ddAppend, hT, Ne.symm hT, List.filter_cons]

/-- Reading a key after a loop that appends each item of a list at every one
of its own keys. -/
theorem ddGet_fold_items {κ β : Type} [DecidableEq κ] (cs : List β) (keys : β → List κ)
    (d : List (κ × List β)) (T : κ) :
    ddGet (cs.foldl (fun d c => (keys c).foldl (fun d t => ddAppend d t c) d) d) T
      = ddGet d T ++ cs.flatMap (fun c => ((keys c).filter (fun t => t = T)).map (fun _ => c)) := by
  induction cs generalizing d with
  | nil => simp
  | cons c cs ih =>
    simp only [List.foldl_cons]
    rw [ih, ddGet_fold_keys]
    simp [List.append_assoc]

namespace OldExt

/-!
Embedding of the ExtensionManager of asdf/extension.py (lines 430-569).

This class is broken as written and its methods are modelled with their
crashes:

* _reset (line 445) and add_extension (line 474) assign
  self._extension_list = None, but the same class defines _extension_list as
  a read-only property (line 497), a data descriptor with no setter, so the
  assignment raises AttributeError.  Construction (whose first statement is
  self._reset()) therefore always raises and no ExtensionManager instance of
  this module can exist.
* add_extension iterates for tag in converter.tags (line 463), but the
  converters the old ExtensionProxy yields are _converter.ConverterProxy
  instances, which define only tag (singular) — the access raises
  AttributeError as soon as an extension has a converter.

A method call is modelled as an Outcome: the state the object is left in
(Python mutates in place and does not roll back) plus the exception that
escaped, if any.
-/

/-- A converter as the old manager sees it: a _converter.ConverterProxy,
which exposes tag (singular) and types.  It has NO tags attribute; the
manager loop that reads converter.tags raises AttributeError. -/
structure Conv where
  id : Nat
  tag : String
  types : List Nat
  deriving DecidableEq, Repr

/-- Data the manager reads from one ExtensionProxy: delegate identity, the
tag_descriptions property result, and the converters property result. -/
structure Ext where
  delegateId : Nat
  tagDescs : List TagDef
  converters : List Conv
  deriving DecidableEq, Repr

/-- The six index fields of an ExtensionManager.  The seventh assignment of
_reset (the _extension_list cache) can never be performed: it raises. -/
structure Manager where
  extensions : List Ext
  tag_descriptions_by_tag : List (String × List TagDef)
  converters_by_tag : List (String × List Conv)
  converters_by_type : List (Nat × List Conv)
  tags : List String
  types : List Nat
  deriving DecidableEq, Repr

/-- Result of a method call: the state the object is left in and the
exception that escaped, if any. -/
structure Outcome where
  state : Manager
  exn : Option String
  deriving DecidableEq, Repr

/-- The AttributeError raised by self._extension_list = None (lines 445 and
474): _extension_list is a read-only property of the class (line 497), and
assigning a property with no setter raises.  (The CPython text wraps the
names in quotes.) -/
def attr_error_extension_list : String :=
  "AttributeError: property _extension_list has no setter"

/-- The AttributeError raised by the converter.tags read at line 463:
_converter.ConverterProxy defines only tag, singular. -/
def attr_error_converter_tags : String :=
  "AttributeError: ConverterProxy object has no attribute tags"

/-- The state of a manager whose six index fields have just been
reassigned by _reset. -/
def empty_state : Manager :=
  { extensions := []
    tag_descriptions_by_tag := []
    converters_by_tag := []
    converters_by_type := []
    tags := []
    types := [] }

/-- ExtensionManager._reset (lines 438-445): the six index fields are
reassigned, then the final statement self._extension_list = None raises
AttributeError; the method never returns normally and the object is left
emptied. -/
def _reset (_m : Manager) : Outcome :=
  { state := empty_state, exn := some attr_error_extension_list }

/-- ExtensionManager.__init__ (lines 431-436): the first statement calls
self._reset(), which raises, so construction always fails with
AttributeError before the add_extension loop is reached. -/
def init (_extensions : List Ext) : Except String Manager :=
  Except.error attr_error_extension_list

/-- The guard of add_extension: any(e for e in self._extensions if
e.delegate is extension.delegate). -/
def has_delegate (m : Manager) (e : Ext) : Bool :=
  m.extensions.any (fun x => x.delegateId = e.delegateId)

/-- The extension_tags set that the first loop of add_extension accumulates
(the tag_uri of each of the extension's tag_descriptions). -/
def extension_tags_of (e : Ext) : List String :=
  e.tagDescs.foldl (fun s td => setAdd s td.tag_uri) []

/-- ExtensionManager.add_extension (lines 447-474).  The early idempotence
return (delegate already present) is the only path that completes normally.
Otherwise the extension is appended and its tag_descriptions indexed, and
then: with at least one converter, the first converter.tags read (line 463)
raises AttributeError before any converter is bound; with no converters the
loops are skipped, the tag/type sets update, and the final
self._extension_list = None (line 474) raises AttributeError. -/
def add_extension (m : Manager) (e : Ext) : Outcome :=
  if has_delegate m e then
    -- It is useful for this method to be idempotent.
    { state := m, exn := none }
  else
    let extensions := m.extensions ++ [e]
    let tag_descriptions_by_tag :=
      e.tagDescs.foldl (fun d td => ddAppend d td.tag_uri td) m.tag_descriptions_by_tag
    let extension_tags := extension_tags_of e
    match e.converters with
    | _ :: _ =>
      { state :=
          { m with
            extensions := extensions
            tag_descriptions_by_tag := tag_descriptions_by_tag }
        exn := some attr_error_converter_tags }
    | [] =>
      { state :=
          { extensions := extensions
            tag_descriptions_by_tag := tag_descriptions_by_tag
            converters_by_tag := m.converters_by_tag
            converters_by_type := m.converters_by_type
            tags := setUpdate m.tags extension_tags
            types := setUpdate m.types [] }
        exn := some attr_error_extension_list }

/-- ExtensionManager.remove_extension (lines 476-482): the remaining list is
computed, then self._reset() empties every field and raises AttributeError;
the re-add loop never runs, so every call leaves the manager emptied and
raises. -/
def remove_extension (m : Manager) (e : Ext) : Outcome :=
  let _remaining := m.extensions.filter (fun x => x.delegateId ≠ e.delegateId)
  _reset m

/-- ExtensionManager.get_converter_for_tag (lines 551-559): an absent tag
yields None, else the first converter bound to it.  No reachable state has
a nonempty index, because add_extension raises before binding any
converter. -/
def get_converter_for_tag (m : Manager) (tag : String) : Option Conv :=
  match ddGet m.converters_by_tag tag with
  | [] => none
  | c :: _ => some c

/-- ExtensionManager.get_converter_for_type (lines 561-569). -/
def get_converter_for_type (m : Manager) (typ : Nat) : Option Conv :=
  match ddGet m.converters_by_type typ with
  | [] => none
  | c :: _ => some c

end OldExt

namespace ConvMgr

/-!
Embedding of the ConverterManager of asdf/_converter.py (lines 238-294).
These converters (the AsdfConverter interface of that module) declare one
tag and a list of types; the manager appends converters to per-tag and
per-type lists in extension order, with no extension-tag filtering.
-/

/-- Data the converter manager reads from one converter. -/
structure Conv where
  id : Nat
  tag : String
  types : List Nat
  deriving DecidableEq, Repr

/-- Data the converter manager reads from one extension. -/
structure Ext where
  converters : List Conv
  deriving DecidableEq, Repr

/-- A Python type object: identity plus its __name__. -/
structure PyType where
  id : Nat
  name : String
  deriving DecidableEq, Repr

structure Manager where
  converters_by_tag : List (String × List Conv)
  converters_by_type : List (Nat × List Conv)
  deriving DecidableEq, Repr

/-- ConverterManager.__init__ (lines 239-249). -/
def build (extensions : List Ext) : Manager :=
  { converters_by_tag :=
      extensions.foldl
        (fun d e => e.converters.foldl (fun d c => ddAppend d c.tag c) d) []
    converters_by_type :=
      extensions.foldl
        (fun d e =>
          e.converters.foldl (fun d c => c.types.foldl (fun d typ => ddAppend d typ c) d) d)
        [] }

/-- ConverterManager.from_type (lines 276-293): an empty converter list for
the type raises ValueError naming the type; otherwise, after a possible
duplicate-extension warning, the LAST registered converter is returned
(return converters[-1]). -/
def from_type (m : Manager) (typ : PyType) : Except String Conv :=
  match (ddGet m.converters_by_type typ.id).getLast? with
  | none => Except.error ("No enabled extension supports type " ++ typ.name)
  | some c => Except.ok c

/-- All converter occurrences registered for a type, in extension order. -/
def collected_for_type (extensions : List Ext) (typ : Nat) : List Conv :=
  extensions.flatMap
    (fun e => e.converters.flatMap
      (fun c => (c.types.filter (fun t => t = typ)).map (fun _ => c)))

theorem build_type_index (extensions : List Ext) (typ : Nat) :
    ddGet (build extensions).converters_by_type typ = collected_for_type extensions typ := by
  suffices h : ∀ d : List (Nat × List Conv),
      ddGet (extensions.foldl
          (fun d e =>
            e.converters.foldl (fun d c => c.types.foldl (fun d typ => ddAppend d typ c) d) d)
          d) typ
        = ddGet d typ ++ collected_for_type extensions typ by
    simpa [build] using h []
  induction extensions with
  | nil => intro d; simp [collected_for_type]
  | cons e es ih =>
    intro d
    simp only [List.foldl_cons]
    rw [ih, ddGet_fold_items e.converters (fun c => c.types)]
    simp [collected_for_type, List.append_assoc]

theorem from_type_build (extensions : List Ext) (typ : PyType) :
    from_type (build extensions) typ
      = match (collected_for_type extensions typ.id).getLast? with
        | none => Except.error ("No enabled extension supports type " ++ typ.name)
        | some c => Except.ok c := by
  simp [from_type, build_type_index]

end ConvMgr

namespace NewConv

/-!
Embedding of the ConverterProxy of asdf/extension/_converter.py.
-/

/-- A raw element of a declared tags property as a Python value: a URI
string, an already-rich TagDefinition, or a value of any other type. -/
inductive PyTag where
  | str (s : String)
  | rich (d : TagDef)
  | other (oid : Nat)
  deriving DecidableEq, Repr

/-- ConverterProxy.tags normalization (lines 176-194): strings are promoted
to bare TagDefinitions, TagDefinitions are kept as given, anything else
raises TypeError. -/
def normalize_tags : List PyTag → Except String (List TagDef)
  | [] => Except.ok []
  | PyTag.str s :: rest =>
    (normalize_tags rest).map (fun ds => { tag_uri := s } :: ds)
  | PyTag.rich d :: rest =>
    (normalize_tags rest).map (fun ds => d :: ds)
  | PyTag.other _ :: _ =>
    Except.error "Converter tags values must be str or asdf.extension.TagDefinition"

/-- The select_tag view of a ConverterProxy: its normalized declared tags
and the select_tag attribute of its delegate, if any (obj and ctx are
opaque, represented by ids). -/
structure CProxy where
  tags : List TagDef
  selectTagMethod : Option (Nat → List String → Nat → String)

/-- ConverterProxy.select_tag (lines 207-228): when the delegate defines no
select_tag, return tags[0] — the first element of the candidate list exactly
as passed (an empty candidate list raises IndexError, modelled as none);
otherwise delegate to the method. -/
def select_tag (p : CProxy) (obj : Nat) (tags : List String) (ctx : Nat) : Option String :=
  match p.selectTagMethod with
  | none => tags.head?
  | some method => some (method obj tags ctx)

/-- A ConverterProxy object as a Python value: its own object identity and
its wrapped delegate identity. -/
structure CProxyObj where
  oid : Nat
  delegateId : Nat
  deriving DecidableEq, Repr

/-- A Python value a ConverterProxy may be compared against. -/
inductive PyVal where
  | cproxy (c : CProxyObj)
  | other (oid : Nat)
  deriving DecidableEq, Repr

/-- ConverterProxy.__eq__ (lines 335-339): delegate identity when the other
operand is a ConverterProxy, False otherwise. -/
def cproxy_eq (a : CProxyObj) (other : PyVal) : Bool :=
  match other with
  | PyVal.cproxy b => a.delegateId == b.delegateId
  | PyVal.other _ => false

/-- ConverterProxy.__hash__ (lines 341-342): hash(id(self.delegate)). -/
def cproxy_hash (a : CProxyObj) : Nat := a.delegateId

end NewConv

namespace NewExt

/-!
Embedding of the ExtensionManager of asdf/extension/_extension.py
(lines 348-510).  Converters here are ConverterProxy instances whose tags
property yields normalized TagDefinition values and whose types may be type
objects or class-name strings.
-/

/-- A Python type declared by a converter: a type object (identity plus
fully qualified class name) or a class-name string. -/
inductive DeclType where
  | typ (id : Nat) (className : String)
  | str (className : String)
  deriving DecidableEq, Repr

/-- Data the manager reads from one ConverterProxy. -/
structure NConv where
  id : Nat
  tags : List TagDef
  types : List DeclType
  deriving DecidableEq, Repr

/-- Data the manager reads from one ExtensionProxy: its delegate identity,
its (already reconciled) tags property, and its converters. -/
structure NExt where
  delegateId : Nat
  tags : List TagDef
  converters : List NConv
  deriving DecidableEq, Repr

/-- A Python type object: identity plus its fully qualified class name (the
value get_class_name produces for it). -/
structure PyType where
  id : Nat
  name : String
  deriving DecidableEq, Repr

/-- Keys of the _converters_by_tag dict.  The build loop only ever inserts
tag-URI strings, but get_converter_for_tag reads the dict at the integer
key 0, so the key type admits both. -/
inductive DKey where
  | str (s : String)
  | int (n : Nat)
  deriving DecidableEq, Repr

structure Manager where
  extensions : List NExt
  tag_defs_by_tag : List (String × List TagDef)
  converters_by_tag : List (DKey × List NConv)
  converters_by_type : List (Nat × List NConv)
  converters_by_type_class_name : List (String × List NConv)
  deriving DecidableEq, Repr

/-- ExtensionManager.__init__ (lines 359-382). -/
def build (extensions : List NExt) : Manager :=
  extensions.foldl
    (fun m extension =>
      let extension_tags := extension.tags.foldl (fun s td => setAdd s td.tag_uri) []
      let tag_defs_by_tag :=
        extension.tags.foldl (fun d td => ddAppend d td.tag_uri td) m.tag_defs_by_tag
      let converters_by_tag :=
        extension.converters.foldl
          (fun d c =>
            c.tags.foldl
              (fun d td =>
                -- The converters may support multiple extension versions, so
                -- only map tags that are included in the extension tag list.
                if td.tag_uri ∈ extension_tags then ddAppend d (DKey.str td.tag_uri) c else d)
              d)
          m.converters_by_tag
      let converters_by_type :=
        extension.converters.foldl
          (fun d c =>
            c.types.foldl
              (fun d t =>
                match t with
                | DeclType.typ id _ => ddAppend d id c
                | DeclType.str _ => d)
              d)
          m.converters_by_type
      let converters_by_type_class_name :=
        extension.converters.foldl
          (fun d c =>
            c.types.foldl
              (fun d t =>
                match t with
                | DeclType.typ _ _ => d
                | DeclType.str s => ddAppend d s c)
              d)
          m.converters_by_type_class_name
      { extensions := m.extensions
        tag_defs_by_tag := tag_defs_by_tag
        converters_by_tag := converters_by_tag
        converters_by_type := converters_by_type
        converters_by_type_class_name := converters_by_type_class_name })
    { extensions := extensions
      tag_defs_by_tag := []
      converters_by_tag := []
      converters_by_type := []
      converters_by_type_class_name := [] }

/-- ExtensionManager.handles_tag (lines 395-409). -/
def handles_tag (m : Manager) (tag : String) : Bool :=
  ddMem m.converters_by_tag (DKey.str tag)

/-- The value a get_converter_for_tag call produces when it does not raise.
Correct behavior would always be a single converter; the source as written
returns the value stored at the integer key 0 of the defaultdict, which is a
(fresh, empty) list. -/
inductive TagLookup where
  | conv (c : NConv)
  | pylist (cs : List NConv)
  deriving DecidableEq, Repr

/-- ExtensionManager.get_converter_for_tag (lines 453-479).  The success
branch is line 472, return self._converters_by_tag[0]: the dict is read at
the integer key 0 (not at [tag][0]), and a defaultdict read of an absent key
yields a fresh empty list.  The failure branch raises KeyError with a
message naming the tag (the Python text wraps the tag in single quotes). -/
def get_converter_for_tag (m : Manager) (tag : String) : Except String TagLookup :=
  if ddMem m.converters_by_tag (DKey.str tag) then
    Except.ok (TagLookup.pylist (ddGet m.converters_by_tag (DKey.int 0)))
  else
    Except.error
      ("No AsdfConverter support available for tag " ++ tag
        ++ ".  You may need to install or enable an extension.")

/-- ExtensionManager.get_converter_for_type (lines 481-510): type-object
key first, then the class-name index, else KeyError naming the class name
(the Python text wraps it in single quotes). -/
def get_converter_for_type (m : Manager) (typ : PyType) : Except String TagLookup :=
  if ddMem m.converters_by_type typ.id then
    match ddGet m.converters_by_type typ.id with
    | c :: _ => Except.ok (TagLookup.conv c)
    | [] => Except.error "IndexError: list index out of range"
  else if ddMem m.converters_by_type_class_name typ.name then
    match ddGet m.converters_by_type_class_name typ.name with
    | c :: _ => Except.ok (TagLookup.conv c)
    | [] => Except.error "IndexError: list index out of range"
  else
    Except.error
      ("No AsdfConverter support available for type " ++ typ.name
        ++ ".  You may need to install or enable an extension.")

end NewExt

namespace NewExt

/-!
Embedding of the ExtensionProxy of asdf/extension/_extension.py
(lines 216-345).
-/

/-- The possible Python values of a delegate's asdf_standard_requirement. -/
inductive PyReq where
  | nonev
  | str (s : String)
  | other (oid : Nat)
  deriving DecidableEq, Repr

/-- packaging.specifiers.SpecifierSet (external library), modelled as the
list of its comma-separated specifier clauses; the empty set matches every
version. -/
structure SpecifierSet where
  specs : List String
  deriving DecidableEq, Repr

/-- SpecifierSet(s): split the requirement string on commas. -/
def specifierSet (s : String) : SpecifierSet :=
  { specs := (s.splitOn ",").map (fun clause => clause.trim) }

/-- The data an ExtensionProxy reads from one of its delegate's converters
(only the raw declared tags matter for the tags property). -/
structure CDelegate where
  id : Nat
  tags : List NewConv.PyTag
  deriving DecidableEq, Repr

/-- The data an ExtensionProxy reads from its delegate extension. -/
structure EDelegate where
  id : Nat
  asdf_standard_requirement : PyReq
  tags : Option (List NewConv.PyTag)
  converters : List CDelegate
  deriving DecidableEq, Repr

/-- The state ExtensionProxy.__init__ establishes (lines 229-241): the
delegate and provenance are stored and the two lazy caches start at None.
The requirement and the tags are NOT examined during construction; the
isinstance check against AsdfExtension always passes because that class's
__subclasshook__ returns True, so construction never raises. -/
structure EProxy where
  delegate : EDelegate
  asdf_standard_requirement_cache : Option SpecifierSet
  tags_cache : Option (List TagDef)
  deriving DecidableEq, Repr

/-- ExtensionProxy.__init__ (lines 229-241). -/
def mkExtensionProxy (delegate : EDelegate) : Except String EProxy :=
  Except.ok
    { delegate := delegate
      asdf_standard_requirement_cache := none
      tags_cache := none }

/-- ExtensionProxy.asdf_standard_requirement (lines 259-269), evaluated on
first property access: a string is parsed as a SpecifierSet, None yields
the unconstrained SpecifierSet, and any other type raises TypeError. -/
def asdf_standard_requirement (p : EProxy) : Except String SpecifierSet :=
  match p.delegate.asdf_standard_requirement with
  | PyReq.str s => Except.ok (specifierSet s)
  | PyReq.nonev => Except.ok { specs := [] }
  | PyReq.other _ => Except.error "asdf_standard_requirement must be str or None"

/-- The some-branch loop of ExtensionProxy.tags (lines 281-287): each
declared tag is normalized (str becomes a bare AsdfTagDefinition, an
AsdfTagDefinition is kept as given, anything else raises TypeError). -/
def normalize_ext_tags : List NewConv.PyTag → Except String (List TagDef)
  | [] => Except.ok []
  | NewConv.PyTag.str s :: rest =>
    (normalize_ext_tags rest).map (fun ds => { tag_uri := s } :: ds)
  | NewConv.PyTag.rich d :: rest =>
    (normalize_ext_tags rest).map (fun ds => d :: ds)
  | NewConv.PyTag.other _ :: _ =>
    Except.error "Extension tags values must be str or asdf.extension.AsdfTagDefinition"

/-- The none-branch loop of ExtensionProxy.tags (lines 277-279):
result.extend(converter.tags) for every converter in self.converters, where
converter.tags is the ConverterProxy normalization of the raw declared
tags. -/
def converters_tags_concat : List CDelegate → Except String (List TagDef)
  | [] => Except.ok []
  | c :: rest =>
    match NewConv.normalize_tags c.tags with
    | Except.ok l => (converters_tags_concat rest).map (fun ds => l ++ ds)
    | Except.error e => Except.error e

/-- The self.converters read at line 278: this ExtensionProxy class defines
NO converters property, so the attribute resolves to the inherited
AsdfExtension.converters default (lines 125-134), the empty list — the
delegate's converters are never consulted. -/
def converters (_p : EProxy) : List CDelegate := []

/-- ExtensionProxy.tags (lines 271-290): with no declared tags the tags of
self.converters are concatenated — but self.converters is always the
inherited empty default, so this branch yields the empty list; with a
declared list every entry is kept after normalization.  No lookup against
converter tags, no dropping of unimplemented tags and no metadata
reconciliation happens here. -/
def tags (p : EProxy) : Except String (List TagDef) :=
  match p.delegate.tags with
  | none => converters_tags_concat (converters p)
  | some ts => normalize_ext_tags ts

/-- An ExtensionProxy object as a Python value: its own object identity and
its wrapped delegate identity.  The class body (lines 216-345) defines no
__eq__ and no __hash__, so Python falls back to object identity for both. -/
structure EProxyObj where
  oid : Nat
  delegateId : Nat
  deriving DecidableEq, Repr

/-- Default object.__eq__ for ExtensionProxy (no __eq__ in the class body). -/
def eproxy_eq (a b : EProxyObj) : Bool := a.oid == b.oid

/-- Default object.__hash__ for ExtensionProxy (derived from the object
id). -/
def eproxy_hash (a : EProxyObj) : Nat := a.oid

end NewExt

namespace Engine

/-!
Modelled from the spec: the recursive to-tree / from-tree walk of the tree
conversion engine with its identity registry and the two-phase generator
protocol (spec section 4.6).  The walk itself (the treeutil/yamlutil
machinery of the repository) is not among the provided sources; only its
two-phase generator shells are: ExtensionManager.to_yaml_tree /
from_yaml_tree in asdf/extension.py (lines 512-549) and
AsdfMapper.to_tree_tagged in asdf/mapper.py (lines 46-58), which pull the
first yielded value of the converter generator, hand it out for
registration, and resume the generator to completion afterwards.  Object
and tree-node identity are explicit: ids index into heaps.
-/

/-- An application object of the modelled custom type Node: a list of
references (by object id) to child Nodes. -/
structure NodeObj where
  children : List Nat
  deriving DecidableEq, Repr

/-- A tagged tree node: a tag URI plus child references by tree-node id. -/
structure TNode where
  tag : String
  children : List Nat
  deriving DecidableEq, Repr

/-- State of a to-tree walk: the registry mapping already-seen object ids to
their (possibly still provisional) tree-node ids, and the tree-node heap
(a node id is a position in the heap). -/
structure ToTreeState where
  registry : List (Nat × Nat)
  theap : List TNode
  deriving DecidableEq, Repr

/-- State of a from-tree walk: the registry mapping already-seen tree-node
ids to their (possibly provisional) object ids, and the object heap. -/
structure FromTreeState where
  registry : List (Nat × Nat)
  oheap : List NodeObj
  deriving DecidableEq, Repr

/-- Modelled from the spec (section 4.6, serialization): visiting an object
first consults the registry, so a shared or cyclic reference resolves to
the already-registered node; otherwise the converter generator's first yield
produces a placeholder node that is registered under the object's identity
BEFORE the children are recursed into, and after the recursion the generator
is resumed, letting the converter fill the placeholder node's children in
place (its identity never changes).  Fuel bounds the recursion depth. -/
def toTreeVisit (heap : List NodeObj) : Nat → Nat → ToTreeState → Option (Nat × ToTreeState)
  | 0, _, _ => none
  | Nat.succ fuel, objId, st =>
    match st.registry.lookup objId with
    | some tid => some (tid, st)
    | none =>
      match heap.get? objId with
      | none => none
      | some obj =>
        let tid := st.theap.length
        let st1 : ToTreeState :=
          { registry := (objId, tid) :: st.registry
            theap := st.theap ++ [{ tag := "tag:x", children := [] }] }
        match obj.children.foldl
            (fun acc c =>
              match acc with
              | none => none
              | some (ids, st2) =>
                match toTreeVisit heap fuel c st2 with
                | none => none
                | some (cid, st3) => some (ids ++ [cid], st3))
            (some ([], st1)) with
        | none => none
        | some (childIds, st4) =>
          some (tid,
            { registry := st4.registry
              theap := st4.theap.set tid { tag := "tag:x", children := childIds } })

/-- Modelled from the spec (section 4.6, deserialization): visiting a tree
node first consults the registry; otherwise the converter generator's first
yield produces a provisional object registered under the node's identity
before the children are converted, and resuming the generator afterwards
completes the provisional object in place without changing its identity. -/
def fromTreeVisit (theap : List TNode) : Nat → Nat → FromTreeState → Option (Nat × FromTreeState)
  | 0, _, _ => none
  | Nat.succ fuel, tid, st =>
    match st.registry.lookup tid with
    | some oid => some (oid, st)
    | none =>
      match theap.get? tid with
      | none => none
      | some node =>
        let oid := st.oheap.length
        let st1 : FromTreeState :=
          { registry := (tid, oid) :: st.registry
            oheap := st.oheap ++ [{ children := [] }] }
        match node.children.foldl
            (fun acc c =>
              match acc with
              | none => none
              | some (ids, st2) =>
                match fromTreeVisit theap fuel c st2 with
                | none => none
                | some (cid, st3) => some (ids ++ [cid], st3))
            (some ([], st1)) with
        | none => none
        | some (childIds, st4) =>
          some (oid,
            { registry := st4.registry
              oheap := st4.oheap.set oid { children := childIds } })

/-- A full round trip at a root object: serialize the object graph into a
tagged tree graph, then deserialize the tree back into an object graph.
The result is the reconstructed root id and the reconstructed object
heap. -/
def roundTrip (heap : List NodeObj) (root fuel : Nat) : Option (Nat × List NodeObj) :=
  match toTreeVisit heap fuel root { registry := [], theap := [] } with
  | none => none
  | some (rootTid, st) =>
    match fromTreeVisit st.theap fuel rootTid { registry := [], oheap := [] } with
    | none => none
    | some (rootOid, st2) => some (rootOid, st2.oheap)

end Engine

/-!
Claim theorems.
-/

/-- C3: round trip of a self-referential Node through the two-phase walk
preserves identity.  For the Node whose child list is itself (object heap
[Node [0]], root 0), the round trip reconstructs a heap with a single
object whose child reference is the reconstructed root itself — the same
instance, not a duplicate.  A two-node cycle likewise reconstructs exactly
two mutually-referencing objects. -/
theorem C3_cyclic_roundtrip_identity :
    Engine.roundTrip [{ children := [0] }] 0 2 = some (0, [{ children := [0] }])
    ∧ (Engine.roundTrip [{ children := [0] }] 0 2).map
        (fun r => (r.2.get? r.1).map (fun o => o.children)) = some (some [0])
    ∧ Engine.roundTrip [{ children := [1] }, { children := [0] }] 0 3
        = some (0, [{ children := [1] }, { children := [0] }]) := by
  exact ⟨rfl, rfl, rfl⟩

/-- C1 counterexample: the claim says the earliest-wins rule also holds for
ConverterManager.from_type, but with two extensions (in caller order) each
registering a converter for type id 7, from_type returns the SECOND
extension's converter (return converters[-1]), not the first's. -/
theorem C1_counterexample_from_type_last_wins :
    ConvMgr.from_type
        (ConvMgr.build [⟨[⟨1, "tag:example.org:a-1.0", [7]⟩]⟩,
                        ⟨[⟨2, "tag:example.org:a-1.0", [7]⟩]⟩])
        ⟨7, "Foo"⟩
      = Except.ok ⟨2, "tag:example.org:a-1.0", [7]⟩
    ∧ (⟨2, "tag:example.org:a-1.0", [7]⟩ : ConvMgr.Conv)
        ≠ ⟨1, "tag:example.org:a-1.0", [7]⟩ := by
  exact ⟨rfl, by decide⟩

/-- C1 (amended): ConverterManager.from_type resolves a type claimed by
several extensions to the LATEST extension in the caller-supplied order,
returning the last registered converter (converters[-1]).  The earliest-wins
half of the original claim concerns the ExtensionManager of
asdf/extension.py, which cannot exhibit any lookup behavior: its
construction always raises AttributeError (the _reset call assigns the
setter-less _extension_list property), and add_extension completes normally
exactly on the idempotent already-present path — every state-modifying call
raises. -/
theorem C1_amended_priority :
    (∀ exts : List OldExt.Ext,
        OldExt.init exts = Except.error OldExt.attr_error_extension_list)
    ∧ (∀ (m : OldExt.Manager) (e : OldExt.Ext),
        (OldExt.add_extension m e).exn = none ↔ OldExt.has_delegate m e = true)
    ∧ (∀ (exts : List ConvMgr.Ext) (typ : ConvMgr.PyType) (c0 : ConvMgr.Conv)
        (cs : List ConvMgr.Conv),
        ConvMgr.collected_for_type exts typ.id = c0 :: cs →
        ConvMgr.from_type (ConvMgr.build exts) typ
          = Except.ok ((c0 :: cs).getLast (List.cons_ne_nil c0 cs))) := by
  refine ⟨fun _ => rfl, ?_, ?_⟩
  · intro m e
    by_cases h : OldExt.has_delegate m e = true
    · simp [OldExt.add_extension, h]
    · have h0 : OldExt.has_delegate m e = false := by simpa using h
      cases hc : e.converters <;> simp [OldExt.add_extension, h0, hc]
  · intro exts typ c0 cs h
    rw [ConvMgr.from_type_build, h,
        List.getLast?_eq_getLast (c0 :: cs) (List.cons_ne_nil c0 cs)]

/-- Witness for C1_amended_priority at concrete inputs: construction of the
old manager raises, and from_type over two extensions both claiming type 7
returns the second (last) converter. -/
theorem C1_amended_priority_witness :
    OldExt.init ([] : List OldExt.Ext)
      = Except.error OldExt.attr_error_extension_list
    ∧ ConvMgr.from_type
        (ConvMgr.build [⟨[⟨1, "t", [7]⟩]⟩, ⟨[⟨2, "t", [7]⟩]⟩]) ⟨7, "Foo"⟩
      = Except.ok (([⟨1, "t", [7]⟩, ⟨2, "t", [7]⟩] : List ConvMgr.Conv).getLast
          (by simp)) := by
  have h := C1_amended_priority
  exact ⟨h.1 [],
    h.2.2 [⟨[⟨1, "t", [7]⟩]⟩, ⟨[⟨2, "t", [7]⟩]⟩] ⟨7, "Foo"⟩ ⟨1, "t", [7]⟩ [⟨2, "t", [7]⟩] rfl⟩

/-- C2: evaluation of the lookup code at the failing inputs.  With one
extension binding one converter to tag asdf://example.com/tags/foo-1.0 and
to type example.Foo: (1) get_converter_for_tag on the BOUND tag returns the
defaultdict default, an empty list, instead of the bound converter (the
source reads self._converters_by_tag[0] instead of [tag][0]); (2) an unknown
tag does raise KeyError naming the tag; (3) get_converter_for_type returns
the bound converter and (4) raises KeyError naming an unknown type. -/
theorem C2_lookup_eval :
    NewExt.get_converter_for_tag
        (NewExt.build [⟨1, [⟨"asdf://example.com/tags/foo-1.0", none, none, none⟩],
          [⟨10, [⟨"asdf://example.com/tags/foo-1.0", none, none, none⟩],
            [NewExt.DeclType.typ 3 "example.Foo"]⟩]⟩])
        "asdf://example.com/tags/foo-1.0"
      = Except.ok (NewExt.TagLookup.pylist [])
    ∧ NewExt.get_converter_for_tag
        (NewExt.build [⟨1, [⟨"asdf://example.com/tags/foo-1.0", none, none, none⟩],
          [⟨10, [⟨"asdf://example.com/tags/foo-1.0", none, none, none⟩],
            [NewExt.DeclType.typ 3 "example.Foo"]⟩]⟩])
        "asdf://example.com/tags/bar-1.0"
      = Except.error
          ("No AsdfConverter support available for tag asdf://example.com/tags/bar-1.0"
            ++ ".  You may need to install or enable an extension.")
    ∧ NewExt.get_converter_for_type
        (NewExt.build [⟨1, [⟨"asdf://example.com/tags/foo-1.0", none, none, none⟩],
          [⟨10, [⟨"asdf://example.com/tags/foo-1.0", none, none, none⟩],
            [NewExt.DeclType.typ 3 "example.Foo"]⟩]⟩])
        ⟨3, "example.Foo"⟩
      = Except.ok (NewExt.TagLookup.conv
          ⟨10, [⟨"asdf://example.com/tags/foo-1.0", none, none, none⟩],
            [NewExt.DeclType.typ 3 "example.Foo"]⟩)
    ∧ NewExt.get_converter_for_type
        (NewExt.build [⟨1, [⟨"asdf://example.com/tags/foo-1.0", none, none, none⟩],
          [⟨10, [⟨"asdf://example.com/tags/foo-1.0", none, none, none⟩],
            [NewExt.DeclType.typ 3 "example.Foo"]⟩]⟩])
        ⟨4, "example.Bar"⟩
      = Except.error
          ("No AsdfConverter support available for type example.Bar"
            ++ ".  You may need to install or enable an extension.") := by
  exact ⟨rfl, rfl, rfl, rfl⟩

/-- C4: evaluation of ExtensionProxy.tags at the failing inputs.  (1) An
extension that declares a rich tag which NO converter implements keeps that
tag in its effective tags (the repository's own test, test_extension_proxy_tags,
expects it to be dropped).  (2) An extension that declares a bare tag URI
string while its converter carries the rich definition for the same URI
keeps the bare string-derived definition (the test expects the richer
converter definition). -/
theorem C4_tags_reconciliation_eval :
    NewExt.tags
        ⟨⟨1, NewExt.PyReq.nonev,
          some [NewConv.PyTag.rich
            ⟨"asdf://somewhere.org/tags/foo-1.0",
              some "asdf://somewhere.org/schemas/foo-1.0",
              some "Some tag title", some "Some tag description"⟩],
          [⟨10, []⟩]⟩, none, none⟩
      = Except.ok
          [⟨"asdf://somewhere.org/tags/foo-1.0",
            some "asdf://somewhere.org/schemas/foo-1.0",
            some "Some tag title", some "Some tag description"⟩]
    ∧ NewExt.tags
        ⟨⟨2, NewExt.PyReq.nonev,
          some [NewConv.PyTag.str "asdf://somewhere.org/tags/foo-1.0"],
          [⟨20, [NewConv.PyTag.rich
            ⟨"asdf://somewhere.org/tags/foo-1.0",
              some "asdf://somewhere.org/schemas/foo-1.0",
              some "Some tag title", some "Some tag description"⟩]⟩]⟩, none, none⟩
      = Except.ok [⟨"asdf://somewhere.org/tags/foo-1.0", none, none, none⟩] := by
  exact ⟨rfl, rfl⟩

/-- C5: evaluation at the failing input.  With tags=None and a delegate
converter declaring tag URI t, proxy.tags is the EMPTY list: the tags
property iterates self.converters, and this ExtensionProxy defines no
converters property, so the inherited AsdfExtension default [] is used and
the delegate's converters are never consulted (the repository's own test,
test_extension_proxy_tags first case, expects the converter's tag).  The
converter's own normalized tags are nonempty, so the claimed union property
fails; the none-branch is empty for EVERY delegate. -/
theorem C5_tags_none_eval :
    NewExt.converters
        ⟨⟨1, NewExt.PyReq.nonev, none, [⟨10, [NewConv.PyTag.str "t"]⟩]⟩, none, none⟩ = []
    ∧ NewExt.tags
        ⟨⟨1, NewExt.PyReq.nonev, none, [⟨10, [NewConv.PyTag.str "t"]⟩]⟩, none, none⟩
      = Except.ok []
    ∧ NewConv.normalize_tags [NewConv.PyTag.str "t"]
      = Except.ok [⟨"t", none, none, none⟩]
    ∧ ∀ d : NewExt.EDelegate,
        NewExt.tags ⟨⟨d.id, d.asdf_standard_requirement, none, d.converters⟩, none, none⟩
          = Except.ok [] := by
  exact ⟨rfl, rfl, rfl, fun d => rfl⟩

/-- C6: evaluation at the failing input.  Constructing an ExtensionProxy
over a delegate whose asdf_standard_requirement is neither str nor None
SUCCEEDS (the repository's own test expects TypeError at construction);
the TypeError is only raised on first access of the property.  The
per-value behavior of the property matches the claim: None yields the
unconstrained SpecifierSet, a string is parsed, another type raises. -/
theorem C6_requirement_validation_eval :
    NewExt.mkExtensionProxy ⟨1, NewExt.PyReq.other 99, none, []⟩
      = Except.ok ⟨⟨1, NewExt.PyReq.other 99, none, []⟩, none, none⟩
    ∧ NewExt.asdf_standard_requirement ⟨⟨1, NewExt.PyReq.other 99, none, []⟩, none, none⟩
      = Except.error "asdf_standard_requirement must be str or None"
    ∧ NewExt.asdf_standard_requirement ⟨⟨2, NewExt.PyReq.nonev, none, []⟩, none, none⟩
      = Except.ok { specs := [] }
    ∧ NewExt.asdf_standard_requirement ⟨⟨3, NewExt.PyReq.str ">=1.4.0", none, []⟩, none, none⟩
      = Except.ok (NewExt.specifierSet ">=1.4.0") := by
  exact ⟨rfl, rfl, rfl, rfl⟩

/-- C7 counterexample: the default select_tag of a converter proxy with
declared tags [tag:a-1.0, tag:b-1.0] and no override returns the first
element of the candidate list AS PRESENTED: presenting the same two
candidates in the two possible orders yields two different results, and the
reordered presentation does not return the first tag in declaration
order. -/
theorem C7_counterexample_presentation_order :
    NewConv.select_tag
        ⟨[⟨"tag:a-1.0", none, none, none⟩, ⟨"tag:b-1.0", none, none, none⟩], none⟩
        0 ["tag:b-1.0", "tag:a-1.0"] 0
      = some "tag:b-1.0"
    ∧ NewConv.select_tag
        ⟨[⟨"tag:a-1.0", none, none, none⟩, ⟨"tag:b-1.0", none, none, none⟩], none⟩
        0 ["tag:a-1.0", "tag:b-1.0"] 0
      = some "tag:a-1.0"
    ∧ NewConv.select_tag
        ⟨[⟨"tag:a-1.0", none, none, none⟩, ⟨"tag:b-1.0", none, none, none⟩], none⟩
        0 ["tag:b-1.0", "tag:a-1.0"] 0
      ≠ NewConv.select_tag
        ⟨[⟨"tag:a-1.0", none, none, none⟩, ⟨"tag:b-1.0", none, none, none⟩], none⟩
        0 ["tag:a-1.0", "tag:b-1.0"] 0
    ∧ (([⟨"tag:a-1.0", none, none, none⟩,
         ⟨"tag:b-1.0", none, none, none⟩] : List TagDef).map
          (fun td => td.tag_uri)).head? = some "tag:a-1.0" := by
  refine ⟨rfl, rfl, ?_, rfl⟩
  intro hcontra
  simp [NewConv.select_tag] at hcontra

/-- C7 (amended): the default select_tag returns the first element of the
candidate list as presented; in particular, when the candidates are
presented in declaration order (a filter of the converter's declared tag
URIs), it returns the earliest declared candidate. -/
theorem C7_amended_select_tag (p : NewConv.CProxy) (obj ctx : Nat)
    (q : String → Bool) (t : String) (ts : List String)
    (hm : p.selectTagMethod = none)
    (hq : (p.tags.map (fun td => td.tag_uri)).filter q = t :: ts) :
    NewConv.select_tag p obj ((p.tags.map (fun td => td.tag_uri)).filter q) ctx = some t
    ∧ ∀ cands : List String, NewConv.select_tag p obj cands ctx = cands.head? := by
  constructor
  · rw [NewConv.select_tag, hm, hq]
    rfl
  · intro cands
    rw [NewConv.select_tag, hm]

/-- Witness for C7_amended_select_tag at a concrete input. -/
theorem C7_amended_select_tag_witness :
    NewConv.select_tag ⟨[⟨"tag:a-1.0", none, none, none⟩], none⟩ 0
        ((([⟨"tag:a-1.0", none, none, none⟩] : List TagDef).map
            (fun td => td.tag_uri)).filter (fun _ => true)) 0
      = some "tag:a-1.0" := by
  have h := C7_amended_select_tag
    ⟨[⟨"tag:a-1.0", none, none, none⟩], none⟩ 0 0 (fun _ => true) "tag:a-1.0" []
    rfl (by rfl)
  exact h.1

/-- C9: evaluation at the failing input.  Two ExtensionProxy objects over
the SAME delegate (object ids 100 and 101, delegate id 5) compare unequal
and hash differently, because the class defines no __eq__ or __hash__ and
Python falls back to object identity — the repository's own test,
test_extension_proxy_hash_and_eq, expects them equal.  ConverterProxy, by
contrast, does compare by delegate identity. -/
theorem C9_proxy_eq_eval :
    NewExt.eproxy_eq ⟨100, 5⟩ ⟨101, 5⟩ = false
    ∧ (⟨100, 5⟩ : NewExt.EProxyObj).delegateId = (⟨101, 5⟩ : NewExt.EProxyObj).delegateId
    ∧ NewExt.eproxy_hash ⟨100, 5⟩ ≠ NewExt.eproxy_hash ⟨101, 5⟩
    ∧ NewConv.cproxy_eq ⟨200, 6⟩ (NewConv.PyVal.cproxy ⟨201, 6⟩) = true
    ∧ NewConv.cproxy_eq ⟨200, 6⟩ (NewConv.PyVal.cproxy ⟨202, 7⟩) = false
    ∧ NewConv.cproxy_hash ⟨200, 6⟩ = NewConv.cproxy_hash ⟨201, 6⟩ := by
  exact ⟨rfl, rfl, by decide, rfl, rfl, rfl⟩

/-- C8: evaluation of the idempotence claim against the crashing code.
Construction of the old ExtensionManager always raises AttributeError, and
a first add_extension of a fresh extension raises after partially mutating
the state (at the cache assignment, or at the converter.tags read when the
extension has converters), so the claimed two-calls scenario cannot run
normally.  The only part of the method that works is the duplicate guard
itself: a second add_extension with the same extension always returns
without an exception and leaves the state of the first call unchanged. -/
theorem C8_add_extension_eval :
    OldExt.init ([] : List OldExt.Ext)
      = Except.error OldExt.attr_error_extension_list
    ∧ OldExt.add_extension OldExt.empty_state ⟨1, [], []⟩
      = { state := { OldExt.empty_state with extensions := [⟨1, [], []⟩] }
          exn := some OldExt.attr_error_extension_list }
    ∧ OldExt.add_extension OldExt.empty_state ⟨1, [], [⟨10, "t", [7]⟩]⟩
      = { state := { OldExt.empty_state with extensions := [⟨1, [], [⟨10, "t", [7]⟩]⟩] }
          exn := some OldExt.attr_error_converter_tags }
    ∧ ∀ (m : OldExt.Manager) (x : OldExt.Ext),
        OldExt.add_extension (OldExt.add_extension m x).state x
          = { state := (OldExt.add_extension m x).state, exn := none } := by
  refine ⟨rfl, rfl, rfl, ?_⟩
  intro m x
  have hx : OldExt.has_delegate (OldExt.add_extension m x).state x = true := by
    by_cases h : OldExt.has_delegate m x = true
    · simp only [OldExt.add_extension, if_pos h]
      exact h
    · simp only [OldExt.add_extension, if_neg h]
      cases hc : x.converters <;>
        simp [OldExt.has_delegate, hc, List.any_append]
  generalize hst : (OldExt.add_extension m x).state = st at hx ⊢
  simp [OldExt.add_extension, hx]

/-- C10: evaluation against the crashing code.  remove_extension computes
the remaining list and then calls _reset, which empties every field and
raises AttributeError before the re-add loop runs: for EVERY manager state
and EVERY extension — present or absent — the call leaves the manager
emptied and raises, rather than leaving it observably unchanged. -/
theorem C10_remove_empties_and_raises (m : OldExt.Manager) (e : OldExt.Ext) :
    OldExt.remove_extension m e
      = { state := OldExt.empty_state
          exn := some OldExt.attr_error_extension_list } := rfl

end AsdfSpec
